/-
Verification of the classicle frozen-namespace library against its design
specification.  The Python sources (src/classicle/frozen_namespace.py and
src/classicle/frozen_instance.py) are shallowly embedded below: Python dicts
become ordered association lists, attribute/metaclass protocol methods become
pure functions, and raising an exception becomes returning an error value.
-/
import Mathlib

namespace Classicle

/-- Fragment of Python values relevant to the library: the scalar constants
used by the test-suite templates, 2-tuples (produced by the instance-style
iterator), and the three kinds of callable-ish objects that can appear in a
class body (plain functions, classmethod objects, staticmethod objects),
identified by name. -/
inductive PyValue where
  | pyInt (n : Int)
  | pyStr (s : String)
  | pyBool (b : Bool)
  | pyNone
  | pyTuple2 (a b : PyValue)
  | pyFunc (fname : String)
  | pyClassMethod (fname : String)
  | pyStaticMethod (fname : String)
  deriving DecidableEq, Repr

/-- CPython builtin callable(): plain functions are callable; staticmethod
objects are callable since Python 3.10; classmethod objects are not callable
(no __call__ slot, verified on CPython 3.11); scalar constants and tuples are
not callable. -/
def pyCallable : PyValue → Bool
  | .pyFunc _ => true
  | .pyStaticMethod _ => true
  | _ => false

/-- Exceptions raised by the embedded fragment. -/
inductive PyError where
  | keyError (k : String)
  | attributeError (msg : String)
  | typeError (msg : String)
  deriving DecidableEq, Repr

/-- A Python dict of str keys, as an ordered association list (insertion
order, unique keys in any dict actually built by CPython). -/
abbrev PyDict := List (String × PyValue)

/-- Membership-respecting dict lookup: first binding of the key, if any. -/
def dictLookup (d : PyDict) (k : String) : Option PyValue :=
  (d.find? fun kv => kv.1 == k).map Prod.snd

/-- Dict membership test (the `in` operator on a dict). -/
def dictContains (d : PyDict) (k : String) : Bool :=
  (dictLookup d k).isSome

/-- Keys of a dict in insertion order (what iter() on a dict yields). -/
def dictKeys (d : PyDict) : List String :=
  d.map Prod.fst

/-- Indexing a dict, raising KeyError when absent; this is the body of
FrozenSpaceMeta.__getitem__ (frozen_namespace.py lines 85-99) applied to the
__attrs__ dict. -/
def dictGetitem (d : PyDict) (k : String) : Except PyError PyValue :=
  match dictLookup d k with
  | some v => Except.ok v
  | none => Except.error (PyError.keyError k)

/-- Python str.startswith, on the character level (the byte-position based
String.startsWith of the Lean core does not reduce in the kernel; on
characters the two agree). -/
def strStartsWith (s p : String) : Bool :=
  p.data.isPrefixOf s.data

/-- Python str.endswith, on the character level. -/
def strEndsWith (s p : String) : Bool :=
  p.data.isSuffixOf s.data

/-- Attribute harvesting shared by both construction styles: keep a binding
iff its name does not start with "_" and its value is not callable, in
declaration order.  This is the dict comprehension at
frozen_namespace.py line 55 and frozen_instance.py line 34. -/
def harvest (template : PyDict) : PyDict :=
  template.filter fun kv => !strStartsWith kv.1 "_" && !pyCallable kv.2

/-- An arbitrary Python object stored in a class slot: either a value of the
embedded fragment or a dict object (the shape __attrs__ normally has). -/
inductive PyObject where
  | val (v : PyValue)
  | dict (d : PyDict)
  deriving DecidableEq, Repr

/-- A class produced by FrozenSpaceMeta.__new__ (frozen_namespace.py lines
42-67).  Its class dict holds exactly the five slots written there; callables
and private names from the declared body appear nowhere in it, and the
harvested constants live only inside the __attrs__ dict.  Base classes are
passed through to type.__new__ untouched, so only their names are recorded;
the content never draws on them. -/
structure FrozenSpaceCls where
  name : String
  baseNames : List String
  attrsObj : PyObject
  moduleObj : PyObject
  qualnameObj : PyObject
  docObj : PyObject
  annotationsObj : PyObject
  deriving DecidableEq, Repr

/-- FrozenSpaceMeta.__new__: harvest the declared namespace into __attrs__
and build the class dict with only the five essential slots (lines 54-67).
The bases argument is forwarded to type.__new__ and contributes nothing to
the new content. -/
def FrozenSpaceMeta.new (name : String) (bases : List FrozenSpaceCls) (ns : PyDict) :
    FrozenSpaceCls :=
  { name := name
    baseNames := bases.map FrozenSpaceCls.name
    attrsObj := PyObject.dict (harvest ns)
    moduleObj := PyObject.val ((dictLookup ns "__module__").getD (PyValue.pyStr ""))
    qualnameObj := PyObject.val ((dictLookup ns "__qualname__").getD (PyValue.pyStr name))
    docObj := PyObject.val ((dictLookup ns "__doc__").getD PyValue.pyNone)
    annotationsObj :=
      match dictLookup ns "__annotations__" with
      | some v => PyObject.val v
      | none => PyObject.dict [] }

/-- FrozenSpaceMeta.__iter__ (lines 69-75): iter(cls.__attrs__), i.e. the
keys of the content dict in insertion order.  Iterating a non-dict __attrs__
slot (reachable only through the internal-slot assignment loophole) is
outside the modelled fragment and surfaces as a TypeError. -/
def FrozenSpaceCls.iterOp (cls : FrozenSpaceCls) : Except PyError (List String) :=
  match cls.attrsObj with
  | PyObject.dict d => Except.ok (dictKeys d)
  | PyObject.val _ => Except.error (PyError.typeError "object is not iterable")

/-- FrozenSpaceMeta.__len__ (lines 77-83): len(cls.__attrs__). -/
def FrozenSpaceCls.lenOp (cls : FrozenSpaceCls) : Except PyError Nat :=
  match cls.attrsObj with
  | PyObject.dict d => Except.ok d.length
  | PyObject.val _ => Except.error (PyError.typeError "object has no len()")

/-- FrozenSpaceMeta.__getitem__ (lines 85-99): return cls.__attrs__[key] when
present, else raise KeyError(key). -/
def FrozenSpaceCls.getitemOp (cls : FrozenSpaceCls) (key : String) : Except PyError PyValue :=
  match cls.attrsObj with
  | PyObject.dict d => dictGetitem d key
  | PyObject.val _ => Except.error (PyError.typeError "argument is not a container")

/-- Mapping.__contains__ mixin inherited through Mapping: try self[key] and
map KeyError to False, anything found to True. -/
def FrozenSpaceCls.containsOp (cls : FrozenSpaceCls) (key : String) : Except PyError Bool :=
  match cls.getitemOp key with
  | Except.ok _ => Except.ok true
  | Except.error (PyError.keyError _) => Except.ok false
  | Except.error e => Except.error e

/-- Sequencing of a view computation over the iteration order, propagating
the first exception (the lazy views KeysView/ItemsView/ValuesView realised
as a list). -/
def viewTraverse {α : Type} (f : String → Except PyError α) :
    List String → Except PyError (List α)
  | [] => Except.ok []
  | k :: ks =>
    match f k with
    | Except.error e => Except.error e
    | Except.ok v =>
      match viewTraverse f ks with
      | Except.error e => Except.error e
      | Except.ok rest => Except.ok (v :: rest)

/-- Mapping.keys mixin: a view over the iteration order. -/
def FrozenSpaceCls.keysOp (cls : FrozenSpaceCls) : Except PyError (List String) :=
  cls.iterOp

/-- Mapping.items mixin: for k in iter(cls) yield (k, cls[k]). -/
def FrozenSpaceCls.itemsOp (cls : FrozenSpaceCls) :
    Except PyError (List (String × PyValue)) :=
  match cls.iterOp with
  | Except.error e => Except.error e
  | Except.ok ks => viewTraverse (fun k => (cls.getitemOp k).map fun v => (k, v)) ks

/-- Mapping.values mixin: for k in iter(cls) yield cls[k]. -/
def FrozenSpaceCls.valuesOp (cls : FrozenSpaceCls) : Except PyError (List PyValue) :=
  match cls.iterOp with
  | Except.error e => Except.error e
  | Except.ok ks => viewTraverse (fun k => cls.getitemOp k) ks

/-- dict(cls): CPython builds the dict from keys() and indexing. -/
def FrozenSpaceCls.toDict (cls : FrozenSpaceCls) : Except PyError PyDict :=
  match cls.keysOp with
  | Except.error e => Except.error e
  | Except.ok ks => viewTraverse (fun k => (cls.getitemOp k).map fun v => (k, v)) ks

/-- Class-dict slot update performed by super().__setattr__ on the allowed
internal names (frozen_namespace.py line 152). -/
def FrozenSpaceCls.storeSlot (cls : FrozenSpaceCls) (name : String) (value : PyObject) :
    FrozenSpaceCls :=
  if name = "__attrs__" then { cls with attrsObj := value }
  else if name = "__module__" then { cls with moduleObj := value }
  else if name = "__qualname__" then { cls with qualnameObj := value }
  else if name = "__doc__" then { cls with docObj := value }
  else if name = "__annotations__" then { cls with annotationsObj := value }
  else cls

/-- The five names admitted by FrozenSpaceMeta.__setattr__ (line 151). -/
def internalSlotNames : List String :=
  ["__attrs__", "__module__", "__qualname__", "__doc__", "__annotations__"]

/-- FrozenSpaceMeta.__setattr__ (lines 140-154): allow the five internal
slot names, raise AttributeError for everything else; the error is raised
before any state is touched. -/
def FrozenSpaceCls.setattrOp (cls : FrozenSpaceCls) (name : String) (value : PyObject) :
    Option PyError × FrozenSpaceCls :=
  if name ∈ internalSlotNames then
    (none, cls.storeSlot name value)
  else
    (some (PyError.attributeError
      ("Cannot modify attribute " ++ name ++ " on frozen namespace")), cls)

/-- FrozenSpaceMeta.__delattr__ (lines 156-165): always raises, touching
nothing. -/
def FrozenSpaceCls.delattrOp (cls : FrozenSpaceCls) (name : String) :
    Option PyError × FrozenSpaceCls :=
  (some (PyError.attributeError
    ("Cannot delete attribute " ++ name ++ " on frozen namespace")), cls)

/-- FrozenSpaceMeta.__call__ (lines 167-179): always raises TypeError with a
message naming the class. -/
def FrozenSpaceCls.callOp (cls : FrozenSpaceCls) (_args : List PyValue) :
    Except PyError PyValue :=
  Except.error (PyError.typeError
    ("Cannot instantiate " ++ cls.name ++
      ". FrozenSpace classes are used directly without instantiation."))

/-- Lookup in the class dict created by __new__, which holds exactly the five
internal slots (lines 58-64); nothing harvested or callable from the declared
body is present here. -/
def FrozenSpaceCls.slotLookup (cls : FrozenSpaceCls) (name : String) : Option PyObject :=
  if name = "__attrs__" then some cls.attrsObj
  else if name = "__module__" then some cls.moduleObj
  else if name = "__qualname__" then some cls.qualnameObj
  else if name = "__doc__" then some cls.docObj
  else if name = "__annotations__" then some cls.annotationsObj
  else none

/-- type.__getattribute__ restricted to the modelled fragment: every class in
the MRO was created by FrozenSpaceMeta.__new__ and therefore carries only the
five slots, so a non-slot name resolves nowhere and raises AttributeError
(the builtin dunders of type/object are outside the fragment and none of the
claims touches them). -/
def FrozenSpaceCls.typeGetattr (cls : FrozenSpaceCls) (name : String) :
    Except PyError PyObject :=
  match cls.slotLookup name with
  | some obj => Except.ok obj
  | none => Except.error (PyError.attributeError
      ("type object " ++ cls.name ++ " has no attribute " ++ name))

/-- FrozenSpaceMeta.__getattribute__ (lines 112-138): dunder names go through
normal resolution; otherwise check the __attrs__ dict first and fall back to
type.__getattribute__. -/
def FrozenSpaceCls.getattrOp (cls : FrozenSpaceCls) (name : String) :
    Except PyError PyObject :=
  if strStartsWith name "__" && strEndsWith name "__" then
    cls.typeGetattr name
  else
    match cls.attrsObj with
    | PyObject.dict d =>
      match dictLookup d name with
      | some v => Except.ok (PyObject.val v)
      | none => cls.typeGetattr name
    | PyObject.val _ => cls.typeGetattr name

/-- The single object returned by the frozen_instance decorator
(frozen_instance.py lines 6-69).  closureAttrs is the local dict captured by
the generated __iter__ (line 34); instDict is the instance __dict__ filled by
__init__ (lines 38-41) and later touched only by the object.__setattr__ call
on line 52 when the guard lets a write through. -/
structure FrozenInstance where
  clsName : String
  closureAttrs : PyDict
  instDict : PyDict
  deriving DecidableEq, Repr

/-- The frozen_instance decorator: harvest the class dict (line 34), then
build the one instance whose __dict__ is a copy of the harvested attrs
(lines 38-41, 69). -/
def frozen_instance (clsName : String) (classDict : PyDict) : FrozenInstance :=
  { clsName := clsName
    closureAttrs := harvest classDict
    instDict := harvest classDict }

/-- Names resolvable on the wrapper instance besides its own __dict__: the
methods defined in the FrozenInstance class body (lines 38-61) and the
metadata copied onto the class (lines 64-66), plus the object-level dunders
the claims could meet.  Additional object dunders exist in CPython but none
of the claims involves them. -/
def frozenInstanceClassAttrNames : List String :=
  ["__init__", "__iter__", "__setattr__", "__delattr__", "__repr__",
   "__name__", "__qualname__", "__module__", "__dict__", "__class__", "__doc__"]

/-- Attribute access on the wrapper instance: the instance __dict__ first,
then the wrapper class; wrapper-class attributes are outside the PyValue
fragment and surface as opaque function markers (the claims only inspect
their presence or absence), and anything else raises AttributeError with the
copied class name in the message. -/
def FrozenInstance.getattrOp (self : FrozenInstance) (name : String) :
    Except PyError PyValue :=
  match dictLookup self.instDict name with
  | some v => Except.ok v
  | none =>
    if name ∈ frozenInstanceClassAttrNames then
      Except.ok (PyValue.pyFunc name)
    else
      Except.error (PyError.attributeError
        (self.clsName ++ " object has no attribute " ++ name))

/-- hasattr(self, name): attribute access succeeds (this is exactly how the
guard on line 50 decides). -/
def FrozenInstance.hasattrFn (self : FrozenInstance) (name : String) : Bool :=
  match self.getattrOp name with
  | Except.ok _ => true
  | Except.error _ => false

/-- FrozenInstance.__setattr__ (lines 48-52): raise when the name already
resolves on the instance, otherwise hand over to object.__setattr__, which
adds the binding to the instance __dict__ (a fresh name appends in insertion
order). -/
def FrozenInstance.setattrOp (self : FrozenInstance) (name : String) (value : PyValue) :
    Option PyError × FrozenInstance :=
  if self.hasattrFn name then
    (some (PyError.attributeError
      ("Cannot modify attribute " ++ name ++ " on frozen instance")), self)
  else
    (none, { self with instDict := self.instDict ++ [(name, value)] })

/-- FrozenInstance.__delattr__ (lines 54-56): always raises, touching
nothing. -/
def FrozenInstance.delattrOp (self : FrozenInstance) (name : String) :
    Option PyError × FrozenInstance :=
  (some (PyError.attributeError
    ("Cannot delete attribute " ++ name ++ " on frozen instance")), self)

/-- The generated __iter__ (lines 43-46): for name in attrs yield
(name, attrs[name]), over the captured closure dict — the yielded elements
are 2-tuples, not bare names.  Indexing a dict by its own keys cannot miss,
hence the filterMap drop branch is unreachable. -/
def FrozenInstance.iterOp (self : FrozenInstance) : List PyValue :=
  (dictKeys self.closureAttrs).filterMap fun k =>
    (dictLookup self.closureAttrs k).map fun v => PyValue.pyTuple2 (PyValue.pyStr k) v

/-- len() on the wrapper instance: the FrozenInstance class defines no
__len__, so CPython raises TypeError (verified on CPython 3.11). -/
def FrozenInstance.lenOp (self : FrozenInstance) : Except PyError Nat :=
  Except.error (PyError.typeError
    ("object of type " ++ self.clsName ++ " has no len()"))

/-- The `in` operator on the wrapper instance: without __contains__, CPython
falls back to scanning __iter__ and comparing elements for equality; the
elements are 2-tuples, so a bare string never matches. -/
def FrozenInstance.containsOp (self : FrozenInstance) (x : PyValue) : Bool :=
  self.iterOp.any fun e => e == x

/-- Calling the returned instance: FrozenInstance defines no __call__, so
CPython raises TypeError naming the copied class name (verified on CPython
3.11). -/
def FrozenInstance.callOp (self : FrozenInstance) (_args : List PyValue) :
    Except PyError PyValue :=
  Except.error (PyError.typeError (self.clsName ++ " object is not callable"))

/-- dict() over an iterable of pairs (how dict(instance) consumes the
generated __iter__): fold the yielded elements into a dict, rejecting any
element that is not a (str, value) 2-tuple. -/
def dictInsert (d : PyDict) (k : String) (v : PyValue) : PyDict :=
  if dictContains d k then d.map fun kv => if kv.1 == k then (k, v) else kv
  else d ++ [(k, v)]

/-- Left-to-right accumulation of yielded pairs into a dict, as the dict
constructor does: an existing key keeps its position and takes the new value,
a fresh key appends. -/
def dictOfPairsAux (acc : PyDict) : List PyValue → Except PyError PyDict
  | [] => Except.ok acc
  | e :: rest =>
    match e with
    | PyValue.pyTuple2 (PyValue.pyStr k) v => dictOfPairsAux (dictInsert acc k v) rest
    | _ => Except.error (PyError.typeError
        "cannot convert dictionary update sequence element to a key-value pair")

/-- dict(iterable) for the pair-yielding iterator of the instance style. -/
def dictOfPairs (elems : List PyValue) : Except PyError PyDict :=
  dictOfPairsAux [] elems

/-- Template from the worked configuration example of the spec and tests. -/
def sampleTemplate : PyDict :=
  [("HOST", PyValue.pyStr "localhost"), ("PORT", PyValue.pyInt 8080)]

/-- Type-style namespace built from the sample template. -/
def sampleCls : FrozenSpaceCls :=
  FrozenSpaceMeta.new "Config" [] sampleTemplate

/-- Instance-style namespace built from the sample template. -/
def sampleInst : FrozenInstance :=
  frozen_instance "Config" sampleTemplate

theorem dictLookup_self_of_nodup :
    ∀ d : PyDict, (dictKeys d).Nodup → ∀ kv ∈ d, dictLookup d kv.1 = some kv.2 := by
  intro d
  induction d with
  | nil => intro _ kv hkv; cases hkv
  | cons hd tl ih =>
    intro hnd kv hkv
    have hnd' : hd.1 ∉ dictKeys tl ∧ (dictKeys tl).Nodup := by
      simpa [dictKeys] using List.nodup_cons.mp hnd
    rcases List.mem_cons.mp hkv with rfl | hmem
    · simp [dictLookup, List.find?]
    · have hne : (hd.1 == kv.1) = false := by
        have : hd.1 ≠ kv.1 := by
          intro he
          exact hnd'.1 (he ▸ List.mem_map_of_mem Prod.fst hmem)
        simpa using this
      have htl := ih hnd'.2 kv hmem
      simpa [dictLookup, List.find?, hne] using htl

theorem dictKeys_harvest_sublist (ns : PyDict) :
    List.Sublist (dictKeys (harvest ns)) (dictKeys ns) :=
  List.Sublist.map Prod.fst (List.filter_sublist ns)

theorem dictKeys_harvest_nodup (ns : PyDict) (h : (dictKeys ns).Nodup) :
    (dictKeys (harvest ns)).Nodup :=
  List.Nodup.sublist (dictKeys_harvest_sublist ns) h

theorem viewTraverse_items (full : PyDict) :
    ∀ d : PyDict, (∀ kv ∈ d, dictLookup full kv.1 = some kv.2) →
      viewTraverse (fun k => (dictGetitem full k).map fun v => (k, v)) (dictKeys d) =
        Except.ok d := by
  intro d
  induction d with
  | nil => intro _; rfl
  | cons hd tl ih =>
    intro h
    have h1 : (dictGetitem full hd.1).map (fun v => (hd.1, v)) = Except.ok (hd.1, hd.2) := by
      simp [dictGetitem, h hd (List.mem_cons_self _ _), Except.map]
    have h2 := ih fun kv hkv => h kv (List.mem_cons_of_mem _ hkv)
    simp only [dictKeys, List.map_cons] at h2 ⊢
    simp only [viewTraverse, h1, h2]

theorem viewTraverse_values (full : PyDict) :
    ∀ d : PyDict, (∀ kv ∈ d, dictLookup full kv.1 = some kv.2) →
      viewTraverse (fun k => dictGetitem full k) (dictKeys d) =
        Except.ok (d.map Prod.snd) := by
  intro d
  induction d with
  | nil => intro _; rfl
  | cons hd tl ih =>
    intro h
    have h1 : dictGetitem full hd.1 = Except.ok hd.2 := by
      simp [dictGetitem, h hd (List.mem_cons_self _ _)]
    have h2 := ih fun kv hkv => h kv (List.mem_cons_of_mem _ hkv)
    simp only [dictKeys, List.map_cons] at h2 ⊢
    simp only [viewTraverse, h1, h2]

theorem filterMap_pairs (full : PyDict) :
    ∀ d : PyDict, (∀ kv ∈ d, dictLookup full kv.1 = some kv.2) →
      (dictKeys d).filterMap
          (fun k => (dictLookup full k).map fun v =>
            PyValue.pyTuple2 (PyValue.pyStr k) v) =
        d.map fun kv => PyValue.pyTuple2 (PyValue.pyStr kv.1) kv.2 := by
  intro d
  induction d with
  | nil => intro _; rfl
  | cons hd tl ih =>
    intro h
    have h1 : dictLookup full hd.1 = some hd.2 := h hd (List.mem_cons_self _ _)
    have h2 := ih fun kv hkv => h kv (List.mem_cons_of_mem _ hkv)
    simp only [dictKeys, List.map_cons] at h2 ⊢
    simp [List.filterMap_cons, h1, h2]

theorem frozenInstance_iter_pairs (cname : String) (t : PyDict)
    (h : (dictKeys t).Nodup) :
    (frozen_instance cname t).iterOp =
      (harvest t).map fun kv => PyValue.pyTuple2 (PyValue.pyStr kv.1) kv.2 := by
  have hl := dictLookup_self_of_nodup (harvest t) (dictKeys_harvest_nodup t h)
  simpa [FrozenInstance.iterOp, frozen_instance] using
    filterMap_pairs (harvest t) (harvest t) hl

theorem dictContains_append (a b : PyDict) (k : String) :
    dictContains (a ++ b) k = (dictContains a k || dictContains b k) := by
  induction a with
  | nil => simp [dictContains, dictLookup]
  | cons hd tl ih =>
    by_cases hk : (hd.1 == k) = true
    · simp [dictContains, dictLookup, List.find?, hk]
    · have hk' : (hd.1 == k) = false := by simp [hk]
      simp [dictContains, dictLookup, List.find?, hk', ih]

theorem dictOfPairsAux_disjoint :
    ∀ (d acc : PyDict), (dictKeys d).Nodup →
      (∀ k ∈ dictKeys d, dictContains acc k = false) →
      dictOfPairsAux acc (d.map fun kv => PyValue.pyTuple2 (PyValue.pyStr kv.1) kv.2) =
        Except.ok (acc ++ d) := by
  intro d
  induction d with
  | nil => intro acc _ _; simp [dictOfPairsAux]
  | cons hd tl ih =>
    intro acc hnd hdisj
    have hnd' : hd.1 ∉ dictKeys tl ∧ (dictKeys tl).Nodup := by
      simpa [dictKeys] using List.nodup_cons.mp hnd
    have hc : dictContains acc hd.1 = false := hdisj hd.1 (by simp [dictKeys])
    have hins : dictInsert acc hd.1 hd.2 = acc ++ [(hd.1, hd.2)] := by
      simp [dictInsert, hc]
    have hdisj' : ∀ k ∈ dictKeys tl, dictContains (acc ++ [(hd.1, hd.2)]) k = false := by
      intro k hk
      have hmem : k ∈ dictKeys (hd :: tl) := by
        simp only [dictKeys, List.map_cons]
        exact List.mem_cons_of_mem _ hk
      have h1 : dictContains acc k = false := hdisj k hmem
      have hne : (hd.1 == k) = false := by
        have : hd.1 ≠ k := fun he => hnd'.1 (he ▸ hk)
        simpa using this
      rw [dictContains_append, h1]
      simp [dictContains, dictLookup, List.find?, hne]
    have := ih (acc ++ [(hd.1, hd.2)]) hnd'.2 hdisj'
    simp only [List.map_cons, dictOfPairsAux, hins, this]
    simp

theorem new_getitem (cname : String) (bases : List FrozenSpaceCls) (ns : PyDict)
    (k : String) :
    (FrozenSpaceMeta.new cname bases ns).getitemOp k = dictGetitem (harvest ns) k :=
  rfl

theorem new_iter (cname : String) (bases : List FrozenSpaceCls) (ns : PyDict) :
    (FrozenSpaceMeta.new cname bases ns).iterOp = Except.ok (dictKeys (harvest ns)) :=
  rfl

theorem dictContains_harvest_le (ns : PyDict) (k : String)
    (h : dictContains (harvest ns) k = true) : dictContains ns k = true := by
  induction ns with
  | nil => simp [harvest, dictContains, dictLookup] at h
  | cons hd tl ih =>
    by_cases hk : (hd.1 == k) = true
    · simp [dictContains, dictLookup, List.find?, hk]
    · have hk' : (hd.1 == k) = false := by simp [hk]
      have htl : dictContains (harvest tl) k = true := by
        rcases hp : (!strStartsWith hd.1 "_" && !pyCallable hd.2) with _ | _
        · simpa [harvest, List.filter_cons, hp] using h
        · simpa [harvest, List.filter_cons, hp, dictContains, dictLookup,
            List.find?, hk'] using h
      have := ih htl
      simpa [dictContains, dictLookup, List.find?, hk'] using this

theorem frozenInstance_iter_shape (inst : FrozenInstance) :
    ∀ e ∈ inst.iterOp, ∃ a b, e = PyValue.pyTuple2 a b := by
  intro e he
  rcases List.mem_filterMap.mp he with ⟨k, _, hf⟩
  rcases Option.map_eq_some'.mp hf with ⟨v, _, rfl⟩
  exact ⟨_, _, rfl⟩

theorem frozenInstance_contains_str_false (inst : FrozenInstance) (s : String) :
    inst.containsOp (PyValue.pyStr s) = false := by
  cases hany : inst.iterOp.any (fun e => e == PyValue.pyStr s) with
  | false => simpa [FrozenInstance.containsOp] using hany
  | true =>
    exfalso
    rcases List.any_eq_true.mp hany with ⟨e, he, heq⟩
    rcases frozenInstance_iter_shape inst e he with ⟨a, b, rfl⟩
    simp at heq

theorem dictGetitem_contains (d : PyDict) (k : String) :
    (match dictGetitem d k with
      | Except.ok _ => Except.ok true
      | Except.error (PyError.keyError _) => Except.ok false
      | Except.error e => Except.error e) = Except.ok (dictContains d k) := by
  simp only [dictGetitem, dictContains]
  cases h : dictLookup d k <;> simp

/-- C1: for every declaration template, the harvested namespace content holds
exactly the bindings whose name does not start with the private marker and
whose value is not callable, in declaration order (a sublist of the
template), and both constructors install exactly this harvest as their
content. -/
theorem c1_harvest_exact (ns : PyDict) :
    (∀ kv : String × PyValue,
      kv ∈ harvest ns ↔
        kv ∈ ns ∧ strStartsWith kv.1 "_" = false ∧ pyCallable kv.2 = false)
    ∧ List.Sublist (harvest ns) ns
    ∧ (∀ (cname : String) (bases : List FrozenSpaceCls),
        (FrozenSpaceMeta.new cname bases ns).attrsObj = PyObject.dict (harvest ns))
    ∧ (∀ cname : String,
        (frozen_instance cname ns).closureAttrs = harvest ns
        ∧ (frozen_instance cname ns).instDict = harvest ns) := by
  refine ⟨?_, List.filter_sublist ns, fun cname bases => rfl, fun cname => ⟨rfl, rfl⟩⟩
  intro kv
  simp [harvest, List.mem_filter, Bool.and_eq_true, Bool.not_eq_true', and_assoc]

/-- C10: type-style attribute assignment raises exactly when the target name
is not one of the five internal slot names, and assigning a dict to
the __attrs__ slot goes through and replaces the whole namespace content. -/
theorem c10_internal_slot_assignment (cls : FrozenSpaceCls) (nm : String)
    (v : PyObject) (d : PyDict) :
    ((cls.setattrOp nm v).1.isSome = true ↔
      ¬(nm = "__attrs__" ∨ nm = "__module__" ∨ nm = "__qualname__" ∨
        nm = "__doc__" ∨ nm = "__annotations__"))
    ∧ (cls.setattrOp "__attrs__" (PyObject.dict d)).1 = none
    ∧ ((cls.setattrOp "__attrs__" (PyObject.dict d)).2).attrsObj = PyObject.dict d := by
  have hiff : nm ∈ internalSlotNames ↔
      (nm = "__attrs__" ∨ nm = "__module__" ∨ nm = "__qualname__" ∨
        nm = "__doc__" ∨ nm = "__annotations__") := by
    simp [internalSlotNames]
  refine ⟨?_, rfl, rfl⟩
  by_cases h : nm ∈ internalSlotNames
  · simp [FrozenSpaceCls.setattrOp, h, hiff.mp h]
  · simp [FrozenSpaceCls.setattrOp, h, (not_congr hiff).mp h]

/-- C4: calling a frozen namespace as a constructor always fails, with the
type-style failure a TypeError whose message embeds the offending type name;
the instance-style object is not callable and fails as well. -/
theorem c4_call_always_fails (cls : FrozenSpaceCls) (inst : FrozenInstance)
    (args : List PyValue) :
    (∃ pre suf : String,
      cls.callOp args = Except.error (PyError.typeError (pre ++ cls.name ++ suf)))
    ∧ (∃ e : PyError, inst.callOp args = Except.error e) :=
  ⟨⟨"Cannot instantiate ",
    ". FrozenSpace classes are used directly without instantiation.", rfl⟩, ⟨_, rfl⟩⟩

/-- C3: whenever a set or delete attempt fails, on either construction style,
the namespace state after the failed call is identical to the state before
it. -/
theorem c3_failed_mutation_preserves_state (cls : FrozenSpaceCls)
    (inst : FrozenInstance) (nm : String) (v : PyObject) (w : PyValue) :
    ((cls.setattrOp nm v).1.isSome = true → (cls.setattrOp nm v).2 = cls)
    ∧ ((cls.delattrOp nm).1.isSome = true → (cls.delattrOp nm).2 = cls)
    ∧ ((inst.setattrOp nm w).1.isSome = true → (inst.setattrOp nm w).2 = inst)
    ∧ ((inst.delattrOp nm).1.isSome = true → (inst.delattrOp nm).2 = inst) := by
  refine ⟨?_, fun _ => rfl, ?_, fun _ => rfl⟩
  · intro h
    by_cases hmem : nm ∈ internalSlotNames
    · simp [FrozenSpaceCls.setattrOp, hmem] at h
    · simp [FrozenSpaceCls.setattrOp, hmem]
  · intro h
    by_cases hha : inst.hasattrFn nm = true
    · simp [FrozenInstance.setattrOp, hha]
    · simp [FrozenInstance.setattrOp, hha] at h

theorem c3_witness :
    ((sampleCls.setattrOp "HOST" (PyObject.val (PyValue.pyInt 1))).1.isSome = true
      ∧ (sampleCls.setattrOp "HOST" (PyObject.val (PyValue.pyInt 1))).2 = sampleCls)
    ∧ ((sampleInst.setattrOp "HOST" (PyValue.pyInt 1)).1.isSome = true
      ∧ (sampleInst.setattrOp "HOST" (PyValue.pyInt 1)).2 = sampleInst) :=
  ⟨⟨by decide, (c3_failed_mutation_preserves_state sampleCls sampleInst "HOST"
      (PyObject.val (PyValue.pyInt 1)) (PyValue.pyInt 1)).1 (by decide)⟩,
   ⟨by decide, (c3_failed_mutation_preserves_state sampleCls sampleInst "HOST"
      (PyObject.val (PyValue.pyInt 1)) (PyValue.pyInt 1)).2.2.1 (by decide)⟩⟩

/-- C2 counterexample: on the instance-style namespace built from the sample
template, assigning the fresh name NEW raises nothing and extends the
instance dict, so set does not always fail with an immutability violation. -/
theorem c2_counterexample :
    (sampleInst.setattrOp "NEW" (PyValue.pyInt 5)).1 = none
    ∧ (sampleInst.setattrOp "NEW" (PyValue.pyInt 5)).2.instDict =
        harvest sampleTemplate ++ [("NEW", PyValue.pyInt 5)] := by
  decide

/-- C2 (amended): delete always fails on both styles; type-style set fails
for every name outside the five internal slot names; instance-style set
fails for every name that already resolves as an attribute, in particular
for every name in the namespace content. -/
theorem c2_amended (cls : FrozenSpaceCls) (inst : FrozenInstance) (nm : String)
    (v : PyObject) (w : PyValue) :
    (nm ∉ internalSlotNames →
      (cls.setattrOp nm v).1 = some (PyError.attributeError
        ("Cannot modify attribute " ++ nm ++ " on frozen namespace")))
    ∧ (inst.hasattrFn nm = true →
      (inst.setattrOp nm w).1 = some (PyError.attributeError
        ("Cannot modify attribute " ++ nm ++ " on frozen instance")))
    ∧ (dictContains inst.instDict nm = true → (inst.setattrOp nm w).1.isSome = true)
    ∧ (cls.delattrOp nm).1 = some (PyError.attributeError
        ("Cannot delete attribute " ++ nm ++ " on frozen namespace"))
    ∧ (inst.delattrOp nm).1 = some (PyError.attributeError
        ("Cannot delete attribute " ++ nm ++ " on frozen instance")) := by
  refine ⟨?_, ?_, ?_, rfl, rfl⟩
  · intro h
    simp [FrozenSpaceCls.setattrOp, h]
  · intro h
    simp [FrozenInstance.setattrOp, h]
  · intro h
    simp only [dictContains] at h
    rcases Option.isSome_iff_exists.mp h with ⟨x, hx⟩
    have hha : inst.hasattrFn nm = true := by
      simp [FrozenInstance.hasattrFn, FrozenInstance.getattrOp, hx]
    simp [FrozenInstance.setattrOp, hha]

theorem c2_amended_witness :
    ("HOST" ∉ internalSlotNames
      ∧ (sampleCls.setattrOp "HOST" (PyObject.val (PyValue.pyInt 1))).1 =
          some (PyError.attributeError
            "Cannot modify attribute HOST on frozen namespace"))
    ∧ (sampleInst.hasattrFn "HOST" = true
      ∧ (sampleInst.setattrOp "HOST" (PyValue.pyInt 1)).1 =
          some (PyError.attributeError
            "Cannot modify attribute HOST on frozen instance")) := by
  refine ⟨⟨by decide, ?_⟩, ⟨by decide, ?_⟩⟩
  · exact ((c2_amended sampleCls sampleInst "HOST" (PyObject.val (PyValue.pyInt 1))
      (PyValue.pyInt 1)).1 (by decide)).trans (by decide)
  · exact ((c2_amended sampleCls sampleInst "HOST" (PyObject.val (PyValue.pyInt 1))
      (PyValue.pyInt 1)).2.1 (by decide)).trans (by decide)

/-- C5: a type-style namespace derived from a parent holds exactly the
harvest of its own declared body: the content does not depend on the parent
at all (construction is a pure function of the body, leaving the parent
untouched), and any name not declared in the body — in particular any data
entry of the parent — is absent from the derived content. -/
theorem c5_inheritance_isolated (B B2 : FrozenSpaceCls) (cname : String)
    (nsD : PyDict) :
    (FrozenSpaceMeta.new cname [B] nsD).attrsObj = PyObject.dict (harvest nsD)
    ∧ (FrozenSpaceMeta.new cname [B2] nsD).attrsObj =
        (FrozenSpaceMeta.new cname [B] nsD).attrsObj
    ∧ (∀ k : String, dictContains nsD k = false →
        dictContains (harvest nsD) k = false) := by
  refine ⟨rfl, rfl, ?_⟩
  intro k h
  cases hc : dictContains (harvest nsD) k with
  | false => rfl
  | true => exact absurd (dictContains_harvest_le nsD k hc) (by simp [h])

theorem c5_witness :
    dictContains [("DERIVED", PyValue.pyStr "derived")] "BASE" = false
    ∧ dictContains (harvest [("DERIVED", PyValue.pyStr "derived")]) "BASE" = false :=
  ⟨by decide, (c5_inheritance_isolated sampleCls sampleCls "DerivedConfig"
      [("DERIVED", PyValue.pyStr "derived")]).2.2 "BASE" (by decide)⟩

/-- Template exercising the three kinds of callable-ish bindings, mirroring
the test-suite classes with classmethod, staticmethod and plain methods. -/
def methodTemplate : PyDict :=
  [("greeting", PyValue.pyStr "hello"),
   ("greet", PyValue.pyClassMethod "greet"),
   ("process", PyValue.pyStaticMethod "process"),
   ("helper", PyValue.pyFunc "helper")]

/-- Type-style namespace built from the method-bearing template. -/
def methodCls : FrozenSpaceCls :=
  FrozenSpaceMeta.new "Config" [] methodTemplate

/-- C9 (code bug, evaluated at the failing input): the classmethod binding
is NOT excluded from the namespace content — classmethod objects are not
callable, so the harvest filter keeps them — and attribute access returns
the raw, non-callable classmethod object; the plain function and the
staticmethod are dropped from the class dict altogether, so attribute access
on them raises AttributeError instead of reaching a callable. -/
theorem c9_callables_lost :
    methodCls.getitemOp "greet" = Except.ok (PyValue.pyClassMethod "greet")
    ∧ pyCallable (PyValue.pyClassMethod "greet") = false
    ∧ methodCls.getattrOp "greet" =
        Except.ok (PyObject.val (PyValue.pyClassMethod "greet"))
    ∧ methodCls.getattrOp "helper" = Except.error
        (PyError.attributeError "type object Config has no attribute helper")
    ∧ methodCls.getattrOp "process" = Except.error
        (PyError.attributeError "type object Config has no attribute process")
    ∧ methodCls.getitemOp "helper" = Except.error (PyError.keyError "helper") :=
  ⟨rfl, rfl, rfl, rfl, rfl, rfl⟩

/-- C6 counterexample: the instance-style namespace has no items attribute
at all — the lookup raises AttributeError — so the views do not exist there,
let alone never fail. -/
theorem c6_counterexample :
    sampleInst.getattrOp "items" =
      Except.error (PyError.attributeError "Config object has no attribute items") :=
  rfl

/-- C6 (amended): on the type-style namespace the items/keys/values views
never fail and agree with the harvested content, and dict conversion equals
the items view; on the instance style the views are absent, and dict
conversion instead consumes the pair iterator and still reconstructs exactly
the harvested content. -/
theorem c6_amended (cname : String) (bases : List FrozenSpaceCls) (ns : PyDict)
    (h : (dictKeys ns).Nodup) :
    (FrozenSpaceMeta.new cname bases ns).itemsOp = Except.ok (harvest ns)
    ∧ (FrozenSpaceMeta.new cname bases ns).keysOp =
        Except.ok (dictKeys (harvest ns))
    ∧ (FrozenSpaceMeta.new cname bases ns).valuesOp =
        Except.ok ((harvest ns).map Prod.snd)
    ∧ (FrozenSpaceMeta.new cname bases ns).toDict =
        (FrozenSpaceMeta.new cname bases ns).itemsOp
    ∧ dictOfPairs ((frozen_instance cname ns).iterOp) = Except.ok (harvest ns) := by
  have hl := dictLookup_self_of_nodup (harvest ns) (dictKeys_harvest_nodup ns h)
  refine ⟨?_, rfl, ?_, rfl, ?_⟩
  · exact viewTraverse_items (harvest ns) (harvest ns) hl
  · exact viewTraverse_values (harvest ns) (harvest ns) hl
  · rw [frozenInstance_iter_pairs cname ns h]
    have := dictOfPairsAux_disjoint (harvest ns) []
      (dictKeys_harvest_nodup ns h) (fun k _ => rfl)
    simpa [dictOfPairs] using this

theorem c6_witness :
    (dictKeys sampleTemplate).Nodup
    ∧ sampleCls.itemsOp = Except.ok (harvest sampleTemplate) :=
  ⟨by decide, (c6_amended "Config" [] sampleTemplate (by decide)).1⟩

/-- C7 counterexample: on the instance-style namespace, len() raises (the
wrapper defines no length protocol), and the membership test of the bare
harvested name HOST is false even though HOST is a harvested entry name. -/
theorem c7_counterexample :
    (∃ e : PyError, sampleInst.lenOp = Except.error e)
    ∧ dictContains (harvest sampleTemplate) "HOST" = true
    ∧ sampleInst.containsOp (PyValue.pyStr "HOST") = false :=
  ⟨⟨_, rfl⟩, by decide, by decide⟩

/-- C7 (amended): on the type-style namespace, length never fails and equals
the count of harvested entries, and the membership test never fails and
holds exactly for harvested entry names; on the instance style, length
always fails and a bare name is never a member (its iterator yields pairs). -/
theorem c7_amended (cname : String) (bases : List FrozenSpaceCls) (ns : PyDict)
    (k : String) :
    (FrozenSpaceMeta.new cname bases ns).lenOp = Except.ok (harvest ns).length
    ∧ (FrozenSpaceMeta.new cname bases ns).containsOp k =
        Except.ok (dictContains (harvest ns) k)
    ∧ (∃ e : PyError, (frozen_instance cname ns).lenOp = Except.error e)
    ∧ (frozen_instance cname ns).containsOp (PyValue.pyStr k) = false := by
  refine ⟨rfl, ?_, ⟨_, rfl⟩, frozenInstance_contains_str_false _ k⟩
  calc (FrozenSpaceMeta.new cname bases ns).containsOp k
      = (match dictGetitem (harvest ns) k with
          | Except.ok _ => Except.ok true
          | Except.error (PyError.keyError _) => Except.ok false
          | Except.error e => Except.error e) := by
        simp only [FrozenSpaceCls.containsOp, new_getitem]
    _ = Except.ok (dictContains (harvest ns) k) := dictGetitem_contains _ _

/-- C8 counterexample: the instance-style iterator yields (name, value)
pairs, not the entry names, so iteration does not produce the sequence of
names. -/
theorem c8_counterexample :
    sampleInst.iterOp =
      [PyValue.pyTuple2 (PyValue.pyStr "HOST") (PyValue.pyStr "localhost"),
       PyValue.pyTuple2 (PyValue.pyStr "PORT") (PyValue.pyInt 8080)]
    ∧ sampleInst.iterOp ≠
        (dictKeys (harvest sampleTemplate)).map PyValue.pyStr := by
  decide

/-- C8 (amended): iteration is finite and in declaration order on both
styles — the type style yields the harvested entry names (a sublist of the
template names), while the instance style yields the (name, value) pairs of
the harvested entries; as pure functions of the constructed state, repeated
iteration always yields the same sequence. -/
theorem c8_iteration_order (cname : String) (bases : List FrozenSpaceCls)
    (ns : PyDict) (h : (dictKeys ns).Nodup) :
    (FrozenSpaceMeta.new cname bases ns).iterOp = Except.ok (dictKeys (harvest ns))
    ∧ List.Sublist (dictKeys (harvest ns)) (dictKeys ns)
    ∧ (frozen_instance cname ns).iterOp =
        (harvest ns).map (fun kv => PyValue.pyTuple2 (PyValue.pyStr kv.1) kv.2) :=
  ⟨rfl, dictKeys_harvest_sublist ns, frozenInstance_iter_pairs cname ns h⟩

theorem c8_witness :
    (dictKeys sampleTemplate).Nodup
    ∧ sampleInst.iterOp =
        (harvest sampleTemplate).map
          (fun kv => PyValue.pyTuple2 (PyValue.pyStr kv.1) kv.2) :=
  ⟨by decide, (c8_iteration_order "Config" [] sampleTemplate (by decide)).2.2⟩

end Classicle
